import Mathlib

/-!
Verification of the DescartesV2 top-level fold delegate
(`offchain/src/fold/descartesv2_delegate.rs`): the raw-to-logical state
translation `convert_raw_to_logical`, and the creation-event handling and
constants threading of the delegate's `sync` and `fold` methods.

Machine integers (`U256` timestamps, epoch numbers, addresses) are embedded
as `Nat`; the translation logic only compares and adds them and never
relies on wraparound.
-/

namespace DescartesV2

/-- Modelled from the spec: `Block` is `{number, hash, parent_hash,
timestamp}` (the `Block` type comes from `offchain_core`, outside `src/`);
the translation only reads `timestamp`. Hashes are abstracted as `Nat`. -/
structure Block where
  number : Nat
  hash : Nat
  parent_hash : Nat
  timestamp : Nat
deriving DecidableEq

/-- Modelled from the spec: `AccumulatingEpoch` is the epoch currently open
for input submission, identified by `epoch_number` and holding accumulated
inputs (`types.rs` is outside `src/`). Inputs are abstracted as a list. -/
structure AccumulatingEpoch where
  epoch_number : Nat
  inputs : List Nat
deriving DecidableEq

/-- Modelled from the spec: `AccumulatingEpoch::new(epoch_number)` builds a
freshly empty accumulating epoch with the given number. -/
def AccumulatingEpoch.new (epoch_number : Nat) : AccumulatingEpoch :=
  { epoch_number := epoch_number, inputs := [] }

/-- Modelled from the spec: the claims recorded for a sealed epoch; the
translation reads only `first_claim_timestamp()`, the timestamp of the
earliest claim recorded for the epoch. -/
structure Claims where
  first_claim_timestamp : Nat
  other_claim_timestamps : List Nat
deriving DecidableEq

/-- Modelled from the spec: a sealed epoch that has received at least one
claim, carrying its claim record. -/
structure ClaimedEpoch where
  epoch_number : Nat
  claims : Claims
deriving DecidableEq

/-- Modelled from the spec: `SealedEpochState` is the variant
`SealedEpochNoClaims {sealed_epoch}` | `SealedEpochWithClaims
{claimed_epoch}` (`sealed_epoch_delegate.rs` is outside `src/`). -/
inductive SealedEpochState where
  | SealedEpochNoClaims (sealed_epoch : AccumulatingEpoch)
  | SealedEpochWithClaims (claimed_epoch : ClaimedEpoch)
deriving DecidableEq

/-- Modelled from the spec: `ContractPhase` is the variant
`InputAccumulation {}` | `AwaitingConsensus {sealed_epoch, round_start}` |
a dispute variant that never occurs in this configuration
(`epoch_delegate.rs` is outside `src/`). The dispute variant's payload,
matched with `..` in the source, is abstracted as a `Nat`. -/
inductive ContractPhase where
  | InputAccumulation
  | AwaitingConsensus (sealed_epoch : SealedEpochState) (round_start : Nat)
  | AwaitingDispute (dispute_data : Nat)
deriving DecidableEq

/-- Modelled from the spec: the collection of finalized epochs, copied
through the translation unchanged; abstracted as a list of claimed
epochs. -/
structure FinalizedEpochs where
  epochs : List ClaimedEpoch
deriving DecidableEq

/-- Modelled from the spec: raw `EpochState` is `{current_phase,
current_epoch, finalized_epochs, phase_change_timestamp}`, the literal,
mechanically observed contract state (`epoch_delegate.rs` is outside
`src/`). -/
structure EpochState where
  current_phase : ContractPhase
  current_epoch : AccumulatingEpoch
  finalized_epochs : FinalizedEpochs
  phase_change_timestamp : Option Nat
deriving DecidableEq

/-- Modelled from the spec: `ImmutableState` is the constants fixed at
contract creation — `input_duration`, `challenge_period`, the creation
timestamp, and the addresses of collaborating contracts (`types.rs` is
outside `src/`; the field list matches the `From` impl in
`descartesv2_delegate.rs` lines 286-299). -/
structure ImmutableState where
  input_duration : Nat
  challenge_period : Nat
  contract_creation_timestamp : Nat
  input_contract_address : Nat
  output_contract_address : Nat
  validator_contract_address : Nat
  dispute_contract_address : Nat
deriving DecidableEq

/-- Modelled from the spec: `PhaseState` is the variant
`InputAccumulation {}` | `EpochSealedAwaitingFirstClaim {sealed_epoch}` |
`AwaitingConsensusNoConflict {claimed_epoch}` |
`AwaitingConsensusAfterConflict {claimed_epoch, challenge_period_base_ts}`
| `ConsensusTimeout {claimed_epoch}` (`types.rs` is outside `src/`). -/
inductive PhaseState where
  | InputAccumulation
  | EpochSealedAwaitingFirstClaim (sealed_epoch : AccumulatingEpoch)
  | AwaitingConsensusNoConflict (claimed_epoch : ClaimedEpoch)
  | AwaitingConsensusAfterConflict (claimed_epoch : ClaimedEpoch)
      (challenge_period_base_ts : Nat)
  | ConsensusTimeout (claimed_epoch : ClaimedEpoch)
deriving DecidableEq

/-- Modelled from the spec: logical `DescartesV2State` is `{constants,
initial_epoch, current_phase, finalized_epochs, current_epoch}`
(`types.rs` is outside `src/`; the field list matches the struct literal
in `descartesv2_delegate.rs` lines 276-282). -/
structure DescartesV2State where
  constants : ImmutableState
  initial_epoch : Nat
  current_phase : PhaseState
  finalized_epochs : FinalizedEpochs
  current_epoch : AccumulatingEpoch
deriving DecidableEq

/-- Embedding of `convert_raw_to_logical` (`descartesv2_delegate.rs` lines
164-283). The Rust function computes a `phase_state` by matching on the
raw phase, threading the mutable `current_epoch_no_inputs : Option<U256>`
(set only in the expired-InputAccumulation branch), then assembles the
logical state. The `unreachable!()` on the dispute variant is embedded as
`none`. -/
def convert_raw_to_logical (contract_state : EpochState)
    (constants : ImmutableState) (block : Block) (initial_epoch : Nat) :
    Option DescartesV2State :=
  let branch : Option (PhaseState × Option Nat) :=
    match contract_state.current_phase with
    | ContractPhase.InputAccumulation =>
      let input_accumulation_start_timestamp :=
        match contract_state.phase_change_timestamp with
        | some ts => ts
        | none => constants.contract_creation_timestamp
      if block.timestamp >
          input_accumulation_start_timestamp + constants.input_duration then
        some (PhaseState.EpochSealedAwaitingFirstClaim
                contract_state.current_epoch,
              some (contract_state.current_epoch.epoch_number + 1))
      else
        some (PhaseState.InputAccumulation, none)
    | ContractPhase.AwaitingConsensus sealed_epoch round_start =>
      match sealed_epoch with
      | SealedEpochState.SealedEpochNoClaims sealed_epoch =>
        some (PhaseState.EpochSealedAwaitingFirstClaim sealed_epoch, none)
      | SealedEpochState.SealedEpochWithClaims claimed_epoch =>
        let first_claim_timestamp :=
          claimed_epoch.claims.first_claim_timestamp
        let phase_change_timestamp := round_start
        let time_of_last_move :=
          max first_claim_timestamp phase_change_timestamp
        if block.timestamp >
            time_of_last_move + constants.challenge_period then
          some (PhaseState.ConsensusTimeout claimed_epoch, none)
        else if time_of_last_move = first_claim_timestamp then
          some (PhaseState.AwaitingConsensusNoConflict claimed_epoch, none)
        else
          some (PhaseState.AwaitingConsensusAfterConflict claimed_epoch
                  phase_change_timestamp, none)
    | ContractPhase.AwaitingDispute _ => none
  match branch with
  | none => none
  | some (phase_state, current_epoch_no_inputs) =>
    let current_epoch :=
      match current_epoch_no_inputs with
      | some epoch_number => AccumulatingEpoch.new epoch_number
      | none => contract_state.current_epoch
    some { constants := constants
           initial_epoch := initial_epoch
           current_phase := phase_state
           finalized_epochs := contract_state.finalized_epochs
           current_epoch := current_epoch }

/-- Embedding of the generated `DescartesV2CreatedFilter` event payload:
the creation event carries `input_duration`, `challenge_period` and the
four collaborating contract addresses (fields read by the `From` impl in
`descartesv2_delegate.rs` lines 286-299). -/
structure DescartesV2CreatedFilter where
  input_duration : Nat
  challenge_period : Nat
  input : Nat
  output : Nat
  validator_manager : Nat
  dispute_manager : Nat
deriving DecidableEq

/-- Embedding of `impl From<&(DescartesV2CreatedFilter, U256)> for
ImmutableState` (`descartesv2_delegate.rs` lines 286-299). -/
def ImmutableState.from_created
    (src : DescartesV2CreatedFilter × Nat) : ImmutableState :=
  { input_duration := src.1.input_duration
    challenge_period := src.1.challenge_period
    contract_creation_timestamp := src.2
    input_contract_address := src.1.input
    output_contract_address := src.1.output
    validator_contract_address := src.1.validator_manager
    dispute_contract_address := src.1.dispute_manager }

/-- Errors and panics that `sync` and `fold` can surface: typed contract /
access / delegate errors as in the source, plus the two panic paths
(`assert_eq!(e.len(), 1)` and the `unreachable!()` inside
`convert_raw_to_logical`). -/
inductive DelegateFailure where
  | ContractError (err : String)
  | AccessError
  | DelegateError (err : String)
  | AssertionPanic
  | UnreachablePanic
deriving DecidableEq

/-- Environment a `sync` call observes through the chain-access
capability: the result of the creation-event query (each event paired with
its meta block hash), the `get_block` responses (outer `none` = access
error, inner `none` = block not found), and the epoch fold's state for the
queried block. -/
structure SyncEnv where
  created_events : List (DescartesV2CreatedFilter × Nat)
  get_block_timestamp : Nat → Option (Option Nat)
  epoch_fold_state : Except String EpochState

/-- Embedding of `DescartesV2FoldDelegate::sync` (`descartesv2_delegate.rs`
lines 52-122): the creation-event query must return exactly one event
(empty list is a `SyncDelegateError`, more than one fails the
`assert_eq!`); the creation block's timestamp is fetched; constants are
built via `ImmutableState.from_created`; the epoch fold supplies the raw
state; `convert_raw_to_logical` produces the accumulator. -/
def sync (env : SyncEnv) (block : Block) (initial_state : Nat) :
    Except DelegateFailure DescartesV2State :=
  match env.created_events with
  | [] =>
    Except.error
      (DelegateFailure.DelegateError "Descartes create event not found")
  | (create_event, meta_block_hash) :: rest =>
    if rest ≠ [] then
      Except.error DelegateFailure.AssertionPanic
    else
      match env.get_block_timestamp meta_block_hash with
      | none => Except.error DelegateFailure.AccessError
      | some none =>
        Except.error (DelegateFailure.DelegateError "Block not found")
      | some (some timestamp) =>
        let constants :=
          ImmutableState.from_created (create_event, timestamp)
        match env.epoch_fold_state with
        | Except.error e =>
          Except.error
            (DelegateFailure.DelegateError
              ("Epoch state fold error: " ++ e))
        | Except.ok raw_contract_state =>
          match convert_raw_to_logical raw_contract_state constants block
              initial_state with
          | none => Except.error DelegateFailure.UnreachablePanic
          | some s => Except.ok s

/-- Embedding of `DescartesV2FoldDelegate::fold` (`descartesv2_delegate.rs`
lines 124-151): the constants are cloned from the previous accumulator
(never recomputed), the epoch fold supplies the raw state for the new
block, and `convert_raw_to_logical` produces the new accumulator with the
previous accumulator's `initial_epoch`. -/
def fold (previous_state : DescartesV2State) (block : Block)
    (epoch_fold_state : Except String EpochState) :
    Except DelegateFailure DescartesV2State :=
  let constants := previous_state.constants
  match epoch_fold_state with
  | Except.error e =>
    Except.error
      (DelegateFailure.DelegateError ("Epoch state fold error: " ++ e))
  | Except.ok raw_contract_state =>
    match convert_raw_to_logical raw_contract_state constants block
        previous_state.initial_epoch with
    | none => Except.error DelegateFailure.UnreachablePanic
    | some s => Except.ok s

/-- Concrete constants for evaluation: the spec's boundary examples use
`input_duration = 500` and `challenge_period = 300`. -/
def w_constants : ImmutableState :=
  { input_duration := 500
    challenge_period := 300
    contract_creation_timestamp := 400
    input_contract_address := 1
    output_contract_address := 2
    validator_contract_address := 3
    dispute_contract_address := 4 }

/-- Concrete accumulating epoch number 7 with two inputs. -/
def w_epoch : AccumulatingEpoch := { epoch_number := 7, inputs := [21, 22] }

/-- Concrete claim record with first claim at timestamp 2000. -/
def w_claims : Claims :=
  { first_claim_timestamp := 2000, other_claim_timestamps := [2050] }

/-- Concrete claimed epoch carrying `w_claims`. -/
def w_claimed : ClaimedEpoch := { epoch_number := 7, claims := w_claims }

/-- Concrete empty finalized-epoch collection. -/
def w_finalized : FinalizedEpochs := { epochs := [] }

/-- Concrete block at a given timestamp. -/
def w_block (timestamp : Nat) : Block :=
  { number := 10, hash := 100, parent_hash := 99, timestamp := timestamp }

/-- Concrete raw state in `InputAccumulation` with last phase change at
timestamp 1000 (the spec's time-threshold example). -/
def w_raw_ia : EpochState :=
  { current_phase := ContractPhase.InputAccumulation
    current_epoch := w_epoch
    finalized_epochs := w_finalized
    phase_change_timestamp := some 1000 }

/-- Concrete raw state in `AwaitingConsensus` with claims and
`round_start = 1800` (the spec's challenge-period example). -/
def w_raw_wc : EpochState :=
  { current_phase := ContractPhase.AwaitingConsensus
      (SealedEpochState.SealedEpochWithClaims w_claimed) 1800
    current_epoch := w_epoch
    finalized_epochs := w_finalized
    phase_change_timestamp := some 1800 }

/-- Concrete raw state in `AwaitingConsensus` with claims and
`round_start = 2100`, later than the first claim (the spec's
conflict-detection example). -/
def w_raw_ac : EpochState :=
  { current_phase := ContractPhase.AwaitingConsensus
      (SealedEpochState.SealedEpochWithClaims w_claimed) 2100
    current_epoch := w_epoch
    finalized_epochs := w_finalized
    phase_change_timestamp := some 2100 }

/-- Concrete raw state in `AwaitingConsensus` with no claims. -/
def w_raw_nc : EpochState :=
  { current_phase := ContractPhase.AwaitingConsensus
      (SealedEpochState.SealedEpochNoClaims w_epoch) 1800
    current_epoch := w_epoch
    finalized_epochs := w_finalized
    phase_change_timestamp := some 1800 }

/-- Concrete raw state in the dispute variant. -/
def w_raw_disp : EpochState :=
  { current_phase := ContractPhase.AwaitingDispute 0
    current_epoch := w_epoch
    finalized_epochs := w_finalized
    phase_change_timestamp := some 1000 }

/-- Concrete previous accumulator for a `fold` step. -/
def w_prev : DescartesV2State :=
  { constants := w_constants
    initial_epoch := 3
    current_phase := PhaseState.InputAccumulation
    finalized_epochs := w_finalized
    current_epoch := w_epoch }

/-- Concrete accumulator produced by translating `w_raw_ia` at timestamp
1501 (past the input-duration threshold). -/
def w_folded : DescartesV2State :=
  { constants := w_constants
    initial_epoch := 3
    current_phase := PhaseState.EpochSealedAwaitingFirstClaim w_epoch
    finalized_epochs := w_finalized
    current_epoch := AccumulatingEpoch.new 8 }

/-- Concrete accumulator produced by translating `w_raw_nc`. -/
def w_st_nc : DescartesV2State :=
  { constants := w_constants
    initial_epoch := 3
    current_phase := PhaseState.EpochSealedAwaitingFirstClaim w_epoch
    finalized_epochs := w_finalized
    current_epoch := w_epoch }

/-- Concrete sync environment whose creation-event query returns no
events. -/
def w_env_empty : SyncEnv :=
  { created_events := []
    get_block_timestamp := fun _ => some (some 400)
    epoch_fold_state := Except.ok w_raw_ia }

/-- Branch lemma: on raw phase `InputAccumulation`, the translation is the
timestamp comparison from lines 180-206 of the source. -/
lemma convert_raw_to_logical_input_accumulation (raw : EpochState)
    (constants : ImmutableState) (block : Block) (initial_epoch : Nat)
    (h : raw.current_phase = ContractPhase.InputAccumulation) :
    convert_raw_to_logical raw constants block initial_epoch =
      if block.timestamp >
          raw.phase_change_timestamp.getD
            constants.contract_creation_timestamp +
            constants.input_duration then
        some { constants := constants
               initial_epoch := initial_epoch
               current_phase := PhaseState.EpochSealedAwaitingFirstClaim
                 raw.current_epoch
               finalized_epochs := raw.finalized_epochs
               current_epoch := AccumulatingEpoch.new
                 (raw.current_epoch.epoch_number + 1) }
      else
        some { constants := constants
               initial_epoch := initial_epoch
               current_phase := PhaseState.InputAccumulation
               finalized_epochs := raw.finalized_epochs
               current_epoch := raw.current_epoch } := by
  obtain ⟨phase, current_epoch, finalized_epochs, phase_change_timestamp⟩ :=
    raw
  simp only at h
  subst h
  unfold convert_raw_to_logical
  cases phase_change_timestamp <;> dsimp only [Option.getD] <;>
    split_ifs <;> rfl

/-- Branch lemma: on raw phase `AwaitingConsensus` with
`SealedEpochNoClaims`, the translation is the direct mapping from lines
215-218 of the source. -/
lemma convert_raw_to_logical_no_claims (raw : EpochState)
    (constants : ImmutableState) (block : Block) (initial_epoch : Nat)
    (sealed_epoch : AccumulatingEpoch) (round_start : Nat)
    (h : raw.current_phase = ContractPhase.AwaitingConsensus
      (SealedEpochState.SealedEpochNoClaims sealed_epoch) round_start) :
    convert_raw_to_logical raw constants block initial_epoch =
      some { constants := constants
             initial_epoch := initial_epoch
             current_phase := PhaseState.EpochSealedAwaitingFirstClaim
               sealed_epoch
             finalized_epochs := raw.finalized_epochs
             current_epoch := raw.current_epoch } := by
  obtain ⟨phase, current_epoch, finalized_epochs, phase_change_timestamp⟩ :=
    raw
  simp only at h
  subst h
  rfl

/-- Branch lemma: on raw phase `AwaitingConsensus` with
`SealedEpochWithClaims`, the translation is the three-way comparison from
lines 220-256 of the source. -/
lemma convert_raw_to_logical_with_claims (raw : EpochState)
    (constants : ImmutableState) (block : Block) (initial_epoch : Nat)
    (claimed_epoch : ClaimedEpoch) (round_start : Nat)
    (h : raw.current_phase = ContractPhase.AwaitingConsensus
      (SealedEpochState.SealedEpochWithClaims claimed_epoch) round_start) :
    convert_raw_to_logical raw constants block initial_epoch =
      some { constants := constants
             initial_epoch := initial_epoch
             current_phase :=
               if block.timestamp >
                   max claimed_epoch.claims.first_claim_timestamp
                     round_start + constants.challenge_period then
                 PhaseState.ConsensusTimeout claimed_epoch
               else if max claimed_epoch.claims.first_claim_timestamp
                   round_start =
                   claimed_epoch.claims.first_claim_timestamp then
                 PhaseState.AwaitingConsensusNoConflict claimed_epoch
               else
                 PhaseState.AwaitingConsensusAfterConflict claimed_epoch
                   round_start
             finalized_epochs := raw.finalized_epochs
             current_epoch := raw.current_epoch } := by
  obtain ⟨phase, current_epoch, finalized_epochs, phase_change_timestamp⟩ :=
    raw
  simp only at h
  subst h
  unfold convert_raw_to_logical
  dsimp only
  split_ifs <;> rfl

/-- Branch lemma: on the raw dispute variant the translation hits the
`unreachable!()` at lines 262-264 of the source, embedded as `none`. -/
lemma convert_raw_to_logical_dispute (raw : EpochState)
    (constants : ImmutableState) (block : Block) (initial_epoch : Nat)
    (dispute_data : Nat)
    (h : raw.current_phase = ContractPhase.AwaitingDispute dispute_data) :
    convert_raw_to_logical raw constants block initial_epoch = none := by
  obtain ⟨phase, current_epoch, finalized_epochs, phase_change_timestamp⟩ :=
    raw
  simp only at h
  subst h
  rfl

/-- Frame helper: whatever branch `convert_raw_to_logical` takes, the
assembled state carries the `constants` and `initial_epoch` arguments and
the raw state's `finalized_epochs` (source lines 276-282). -/
lemma convert_frame (raw : EpochState) (constants : ImmutableState)
    (block : Block) (initial_epoch : Nat) (st : DescartesV2State)
    (h : convert_raw_to_logical raw constants block initial_epoch =
      some st) :
    st.constants = constants ∧ st.initial_epoch = initial_epoch ∧
      st.finalized_epochs = raw.finalized_epochs := by
  cases hp : raw.current_phase with
  | InputAccumulation =>
    rw [convert_raw_to_logical_input_accumulation raw constants block
      initial_epoch hp] at h
    split_ifs at h <;> (injection h with h1; subst h1; exact ⟨rfl, rfl, rfl⟩)
  | AwaitingConsensus sealed round_start =>
    cases sealed with
    | SealedEpochNoClaims sealed_epoch =>
      rw [convert_raw_to_logical_no_claims raw constants block
        initial_epoch sealed_epoch round_start hp] at h
      injection h with h1; subst h1; exact ⟨rfl, rfl, rfl⟩
    | SealedEpochWithClaims claimed_epoch =>
      rw [convert_raw_to_logical_with_claims raw constants block
        initial_epoch claimed_epoch round_start hp] at h
      injection h with h1; subst h1; exact ⟨rfl, rfl, rfl⟩
  | AwaitingDispute dispute_data =>
    rw [convert_raw_to_logical_dispute raw constants block
      initial_epoch dispute_data hp] at h
    cases h

/-- Claim C1: on raw phase `InputAccumulation`, `start_ts` is the raw
`phase_change_timestamp` when present, else the creation timestamp from
the constants; strictly past `start_ts + input_duration` the logical phase
is `EpochSealedAwaitingFirstClaim` with the raw current epoch sealed and a
freshly empty accumulating epoch numbered one higher; at or before the
threshold phase and current epoch are unchanged. -/
theorem convert_input_accumulation_transition (raw : EpochState)
    (constants : ImmutableState) (block : Block) (initial_epoch : Nat)
    (h : raw.current_phase = ContractPhase.InputAccumulation)
    (start_ts : Nat)
    (hstart : start_ts =
      match raw.phase_change_timestamp with
      | some ts => ts
      | none => constants.contract_creation_timestamp) :
    ∃ st, convert_raw_to_logical raw constants block initial_epoch =
        some st ∧
      (block.timestamp > start_ts + constants.input_duration →
        st.current_phase =
          PhaseState.EpochSealedAwaitingFirstClaim raw.current_epoch ∧
        st.current_epoch =
          AccumulatingEpoch.new (raw.current_epoch.epoch_number + 1)) ∧
      (block.timestamp ≤ start_ts + constants.input_duration →
        st.current_phase = PhaseState.InputAccumulation ∧
        st.current_epoch = raw.current_epoch) := by
  have hg : raw.phase_change_timestamp.getD
      constants.contract_creation_timestamp = start_ts := by
    cases hp : raw.phase_change_timestamp <;> simp [hstart, hp]
  rw [convert_raw_to_logical_input_accumulation raw constants block
    initial_epoch h, hg]
  by_cases hc : block.timestamp > start_ts + constants.input_duration
  · rw [if_pos hc]
    exact ⟨_, rfl, fun _ => ⟨rfl, rfl⟩,
      fun hle => absurd hc (not_lt.mpr hle)⟩
  · rw [if_neg hc]
    exact ⟨_, rfl, fun hgt => absurd hgt hc, fun _ => ⟨rfl, rfl⟩⟩

/-- Claim C2: on raw phase `AwaitingConsensus` with
`SealedEpochWithClaims`, with `last_move_ts = max(first_claim_timestamp,
round_start)`: strictly past `last_move_ts + challenge_period` the phase
is `ConsensusTimeout`; at or before the threshold it is never a timeout,
and when `last_move_ts` equals the first claim timestamp it is
`AwaitingConsensusNoConflict`. -/
theorem convert_with_claims_timeout_boundary (raw : EpochState)
    (constants : ImmutableState) (block : Block) (initial_epoch : Nat)
    (claimed_epoch : ClaimedEpoch) (round_start : Nat)
    (h : raw.current_phase = ContractPhase.AwaitingConsensus
      (SealedEpochState.SealedEpochWithClaims claimed_epoch) round_start)
    (last_move_ts : Nat)
    (hlast : last_move_ts =
      max claimed_epoch.claims.first_claim_timestamp round_start) :
    ∃ st, convert_raw_to_logical raw constants block initial_epoch =
        some st ∧
      (block.timestamp > last_move_ts + constants.challenge_period →
        st.current_phase = PhaseState.ConsensusTimeout claimed_epoch) ∧
      (block.timestamp ≤ last_move_ts + constants.challenge_period →
        (last_move_ts = claimed_epoch.claims.first_claim_timestamp →
          st.current_phase =
            PhaseState.AwaitingConsensusNoConflict claimed_epoch) ∧
        ∀ ce, st.current_phase ≠ PhaseState.ConsensusTimeout ce) := by
  subst hlast
  rw [convert_raw_to_logical_with_claims raw constants block initial_epoch
    claimed_epoch round_start h]
  by_cases hc : block.timestamp >
      max claimed_epoch.claims.first_claim_timestamp round_start +
        constants.challenge_period
  · rw [if_pos hc]
    exact ⟨_, rfl, fun _ => rfl, fun hle => absurd hc (not_lt.mpr hle)⟩
  · rw [if_neg hc]
    by_cases h2 : max claimed_epoch.claims.first_claim_timestamp
        round_start = claimed_epoch.claims.first_claim_timestamp
    · rw [if_pos h2]
      refine ⟨_, rfl, fun hgt => absurd hgt hc, fun _ => ⟨fun _ => rfl, ?_⟩⟩
      intro ce hne
      simp at hne
    · rw [if_neg h2]
      refine ⟨_, rfl, fun hgt => absurd hgt hc,
        fun _ => ⟨fun heq => absurd heq h2, ?_⟩⟩
      intro ce hne
      simp at hne

/-- Claim C3: on raw phase `AwaitingConsensus` with
`SealedEpochWithClaims`, within the challenge period and with
`max(first_claim_timestamp, round_start)` different from the first claim
timestamp (round_start strictly later), the phase is
`AwaitingConsensusAfterConflict` with `challenge_period_base_ts` equal to
`round_start`, and not `AwaitingConsensusNoConflict`. -/
theorem convert_with_claims_after_conflict (raw : EpochState)
    (constants : ImmutableState) (block : Block) (initial_epoch : Nat)
    (claimed_epoch : ClaimedEpoch) (round_start : Nat)
    (h : raw.current_phase = ContractPhase.AwaitingConsensus
      (SealedEpochState.SealedEpochWithClaims claimed_epoch) round_start)
    (hle : block.timestamp ≤
      max claimed_epoch.claims.first_claim_timestamp round_start +
        constants.challenge_period)
    (hne : max claimed_epoch.claims.first_claim_timestamp round_start ≠
      claimed_epoch.claims.first_claim_timestamp) :
    ∃ st, convert_raw_to_logical raw constants block initial_epoch =
        some st ∧
      st.current_phase =
        PhaseState.AwaitingConsensusAfterConflict claimed_epoch
          round_start ∧
      ∀ ce, st.current_phase ≠
        PhaseState.AwaitingConsensusNoConflict ce := by
  rw [convert_raw_to_logical_with_claims raw constants block initial_epoch
    claimed_epoch round_start h]
  rw [if_neg (not_lt.mpr hle), if_neg hne]
  refine ⟨_, rfl, rfl, ?_⟩
  intro ce hcontra
  simp at hcontra

/-- Claim C5: the raw dispute variant makes `convert_raw_to_logical` hit
the `unreachable!()` panic (no `DescartesV2State` is produced), and under
the precondition that the raw phase is `InputAccumulation` or
`AwaitingConsensus` that branch is never taken: a state is always
produced. -/
theorem convert_dispute_unreachable (raw : EpochState)
    (constants : ImmutableState) (block : Block) (initial_epoch : Nat) :
    ((∃ d, raw.current_phase = ContractPhase.AwaitingDispute d) →
      convert_raw_to_logical raw constants block initial_epoch = none) ∧
    ((raw.current_phase = ContractPhase.InputAccumulation ∨
      ∃ se rs, raw.current_phase =
        ContractPhase.AwaitingConsensus se rs) →
      ∃ st, convert_raw_to_logical raw constants block initial_epoch =
        some st) := by
  constructor
  · rintro ⟨d, hd⟩
    exact convert_raw_to_logical_dispute raw constants block initial_epoch
      d hd
  · rintro (h | ⟨se, rs, h⟩)
    · rw [convert_raw_to_logical_input_accumulation raw constants block
        initial_epoch h]
      split_ifs <;> exact ⟨_, rfl⟩
    · cases se with
      | SealedEpochNoClaims sealed_epoch =>
        exact ⟨_, convert_raw_to_logical_no_claims raw constants block
          initial_epoch sealed_epoch rs h⟩
      | SealedEpochWithClaims claimed_epoch =>
        exact ⟨_, convert_raw_to_logical_with_claims raw constants block
          initial_epoch claimed_epoch rs h⟩

/-- Claim C6: on raw phase `AwaitingConsensus` with
`SealedEpochNoClaims`, the logical phase is
`EpochSealedAwaitingFirstClaim` carrying that sealed epoch, for every
block timestamp and every value of the constants. -/
theorem convert_no_claims_direct (raw : EpochState)
    (constants : ImmutableState) (block : Block) (initial_epoch : Nat)
    (sealed_epoch : AccumulatingEpoch) (round_start : Nat)
    (h : raw.current_phase = ContractPhase.AwaitingConsensus
      (SealedEpochState.SealedEpochNoClaims sealed_epoch) round_start) :
    ∃ st, convert_raw_to_logical raw constants block initial_epoch =
        some st ∧
      st.current_phase =
        PhaseState.EpochSealedAwaitingFirstClaim sealed_epoch := by
  rw [convert_raw_to_logical_no_claims raw constants block initial_epoch
    sealed_epoch round_start h]
  exact ⟨_, rfl, rfl⟩

/-- Claim C8: `convert_raw_to_logical` is deterministic — equal raw
states, constants, blocks and initial epochs give identical results; the
output depends on nothing else. -/
theorem convert_deterministic (r1 r2 : EpochState)
    (c1 c2 : ImmutableState) (b1 b2 : Block) (i1 i2 : Nat)
    (hr : r1 = r2) (hc : c1 = c2) (hb : b1 = b2) (hi : i1 = i2) :
    convert_raw_to_logical r1 c1 b1 i1 =
      convert_raw_to_logical r2 c2 b2 i2 := by
  subst hr; subst hc; subst hb; subst hi; rfl

/-- Claim C9: every state produced by `convert_raw_to_logical` copies the
raw `finalized_epochs` unchanged and is stamped with the `initial_epoch`
and `constants` arguments, in every phase branch. -/
theorem convert_frame_fields (raw : EpochState)
    (constants : ImmutableState) (block : Block) (initial_epoch : Nat)
    (st : DescartesV2State)
    (h : convert_raw_to_logical raw constants block initial_epoch =
      some st) :
    st.finalized_epochs = raw.finalized_epochs ∧
      st.initial_epoch = initial_epoch ∧ st.constants = constants :=
  ⟨(convert_frame raw constants block initial_epoch st h).2.2,
   (convert_frame raw constants block initial_epoch st h).2.1,
   (convert_frame raw constants block initial_epoch st h).1⟩

/-- Claim C10: on raw phase `AwaitingConsensus` (either sub-state), the
logical state's `current_epoch` is exactly the raw `current_epoch`; the
fresh-empty-epoch reconstruction happens only in the
expired-InputAccumulation case. -/
theorem convert_awaiting_consensus_keeps_epoch (raw : EpochState)
    (constants : ImmutableState) (block : Block) (initial_epoch : Nat)
    (se : SealedEpochState) (rs : Nat) (st : DescartesV2State)
    (hphase : raw.current_phase = ContractPhase.AwaitingConsensus se rs)
    (h : convert_raw_to_logical raw constants block initial_epoch =
      some st) :
    st.current_epoch = raw.current_epoch := by
  cases se with
  | SealedEpochNoClaims sealed_epoch =>
    rw [convert_raw_to_logical_no_claims raw constants block initial_epoch
      sealed_epoch rs hphase] at h
    injection h with h1; subst h1; rfl
  | SealedEpochWithClaims claimed_epoch =>
    rw [convert_raw_to_logical_with_claims raw constants block
      initial_epoch claimed_epoch rs hphase] at h
    injection h with h1; subst h1; rfl

/-- Claim C4: `sync` demands exactly one contract creation event — an
empty query result is the fatal delegate error "Descartes create event
not found", more than one event fails the `assert_eq!(e.len(), 1)`
assertion; in neither case is a `DescartesV2State` produced. -/
theorem sync_creation_event_cardinality (env : SyncEnv) (block : Block)
    (initial_state : Nat) :
    (env.created_events = [] →
      sync env block initial_state = Except.error
        (DelegateFailure.DelegateError
          "Descartes create event not found")) ∧
    (2 ≤ env.created_events.length →
      sync env block initial_state =
        Except.error DelegateFailure.AssertionPanic) ∧
    ((env.created_events = [] ∨ 2 ≤ env.created_events.length) →
      ∀ st, sync env block initial_state ≠ Except.ok st) := by
  obtain ⟨evs, gbt, efs⟩ := env
  have hempty : evs = [] →
      sync ⟨evs, gbt, efs⟩ block initial_state = Except.error
        (DelegateFailure.DelegateError
          "Descartes create event not found") := by
    intro he; subst he; rfl
  have hmany : 2 ≤ evs.length →
      sync ⟨evs, gbt, efs⟩ block initial_state =
        Except.error DelegateFailure.AssertionPanic := by
    intro hlen
    cases evs with
    | nil => simp at hlen
    | cons e1 tl =>
      cases tl with
      | nil => simp at hlen
      | cons e2 rest =>
        have hne : (e2 :: rest) ≠ [] := by simp
        simp only [sync]
        rw [if_pos hne]
  refine ⟨hempty, hmany, ?_⟩
  rintro (he | hlen) st hok
  · rw [hempty he] at hok; cases hok
  · rw [hmany hlen] at hok; cases hok

/-- Claim C7: `fold` never recomputes the constants — it clones them from
the previous accumulator, and `convert_raw_to_logical` stamps exactly that
value, so any accumulator `fold` produces has the previous accumulator's
`constants`. -/
theorem fold_preserves_constants (previous_state : DescartesV2State)
    (block : Block) (epoch_fold_state : Except String EpochState)
    (st : DescartesV2State)
    (h : fold previous_state block epoch_fold_state = Except.ok st) :
    st.constants = previous_state.constants := by
  unfold fold at h
  cases epoch_fold_state with
  | error e => cases h
  | ok raw_contract_state =>
    dsimp only at h
    cases hconv : convert_raw_to_logical raw_contract_state
        previous_state.constants block previous_state.initial_epoch with
    | none => rw [hconv] at h; cases h
    | some s =>
      rw [hconv] at h
      injection h with h1
      subst h1
      exact (convert_frame raw_contract_state previous_state.constants
        block previous_state.initial_epoch s hconv).1

/-- Witness for C1: `w_raw_ia` (phase change at 1000, duration 500) at
block timestamp 1501 — strictly past the threshold. -/
theorem convert_input_accumulation_transition_witness :
    ∃ st, convert_raw_to_logical w_raw_ia w_constants (w_block 1501) 3 =
        some st ∧
      ((w_block 1501).timestamp > 1000 + w_constants.input_duration →
        st.current_phase =
          PhaseState.EpochSealedAwaitingFirstClaim w_raw_ia.current_epoch ∧
        st.current_epoch =
          AccumulatingEpoch.new (w_raw_ia.current_epoch.epoch_number + 1)) ∧
      ((w_block 1501).timestamp ≤ 1000 + w_constants.input_duration →
        st.current_phase = PhaseState.InputAccumulation ∧
        st.current_epoch = w_raw_ia.current_epoch) :=
  convert_input_accumulation_transition w_raw_ia w_constants (w_block 1501)
    3 rfl 1000 rfl

/-- Witness for C2: `w_raw_wc` (first claim 2000, round_start 1800,
challenge period 300) at block timestamp 2301. -/
theorem convert_with_claims_timeout_boundary_witness :
    ∃ st, convert_raw_to_logical w_raw_wc w_constants (w_block 2301) 3 =
        some st ∧
      ((w_block 2301).timestamp > 2000 + w_constants.challenge_period →
        st.current_phase = PhaseState.ConsensusTimeout w_claimed) ∧
      ((w_block 2301).timestamp ≤ 2000 + w_constants.challenge_period →
        (2000 = w_claimed.claims.first_claim_timestamp →
          st.current_phase =
            PhaseState.AwaitingConsensusNoConflict w_claimed) ∧
        ∀ ce, st.current_phase ≠ PhaseState.ConsensusTimeout ce) :=
  convert_with_claims_timeout_boundary w_raw_wc w_constants (w_block 2301)
    3 w_claimed 1800 rfl 2000 (by decide)

/-- Witness for C3: `w_raw_ac` (first claim 2000, round_start 2100) at
block timestamp 2300, within the challenge period. -/
theorem convert_with_claims_after_conflict_witness :
    ∃ st, convert_raw_to_logical w_raw_ac w_constants (w_block 2300) 3 =
        some st ∧
      st.current_phase =
        PhaseState.AwaitingConsensusAfterConflict w_claimed 2100 ∧
      ∀ ce, st.current_phase ≠
        PhaseState.AwaitingConsensusNoConflict ce :=
  convert_with_claims_after_conflict w_raw_ac w_constants (w_block 2300) 3
    w_claimed 2100 rfl (by decide) (by decide)

/-- Witness for C4: the empty-creation-event environment makes `sync`
return the fatal delegate error. -/
theorem sync_creation_event_cardinality_witness :
    sync w_env_empty (w_block 1501) 3 = Except.error
      (DelegateFailure.DelegateError
        "Descartes create event not found") :=
  (sync_creation_event_cardinality w_env_empty (w_block 1501) 3).1 rfl

/-- Witness for C5: the dispute-variant raw state produces no logical
state. -/
theorem convert_dispute_unreachable_witness :
    convert_raw_to_logical w_raw_disp w_constants (w_block 1501) 3 =
      none :=
  (convert_dispute_unreachable w_raw_disp w_constants (w_block 1501) 3).1
    ⟨0, rfl⟩

/-- Witness for C6: the no-claims raw state maps to
`EpochSealedAwaitingFirstClaim` even at a very large timestamp. -/
theorem convert_no_claims_direct_witness :
    ∃ st, convert_raw_to_logical w_raw_nc w_constants (w_block 9999) 3 =
        some st ∧
      st.current_phase =
        PhaseState.EpochSealedAwaitingFirstClaim w_epoch :=
  convert_no_claims_direct w_raw_nc w_constants (w_block 9999) 3 w_epoch
    1800 rfl

/-- Witness for C7: a concrete `fold` step from `w_prev` yields
`w_folded`, whose constants equal the previous accumulator's. -/
theorem fold_preserves_constants_witness :
    w_folded.constants = w_prev.constants :=
  fold_preserves_constants w_prev (w_block 1501) (Except.ok w_raw_ia)
    w_folded rfl

/-- Witness for C8: determinism applied at a concrete input. -/
theorem convert_deterministic_witness :
    convert_raw_to_logical w_raw_ia w_constants (w_block 1501) 3 =
      convert_raw_to_logical w_raw_ia w_constants (w_block 1501) 3 :=
  convert_deterministic w_raw_ia w_raw_ia w_constants w_constants
    (w_block 1501) (w_block 1501) 3 3 rfl rfl rfl rfl

/-- Witness for C9: the frame fields of the concrete translation of
`w_raw_ia` at timestamp 1501. -/
theorem convert_frame_fields_witness :
    w_folded.finalized_epochs = w_raw_ia.finalized_epochs ∧
      w_folded.initial_epoch = 3 ∧ w_folded.constants = w_constants :=
  convert_frame_fields w_raw_ia w_constants (w_block 1501) 3 w_folded rfl

/-- Witness for C10: translating `w_raw_nc` keeps the raw current
epoch. -/
theorem convert_awaiting_consensus_keeps_epoch_witness :
    w_st_nc.current_epoch = w_raw_nc.current_epoch :=
  convert_awaiting_consensus_keeps_epoch w_raw_nc w_constants
    (w_block 9999) 3 (SealedEpochState.SealedEpochNoClaims w_epoch) 1800
    w_st_nc rfl rfl

end DescartesV2
